import Mathlib

/-!
# Privacy Badger (Firefox) — `lib/main.js`

A shallow embedding of the bootstrap layer of the extension: the two HTTP
observers `onExamineResponse` and `onModifyRequest`, and the lifecycle
functions `main` and `unload`.

JavaScript statements become steps of a state-and-exception script: a step
either completes normally with a value or throws, and in both cases the
mutations made so far stay in the state (a thrown exception does not roll a
header write back).  Every call that leaves `main.js` is recorded in a call
log, so that "is called", "is not called" and "in which order" are
statements about that log.
-/

set_option autoImplicit false

namespace PrivacyBadger

/-! ## Completions and scripts -/

/-- How a JavaScript call ends: normally with a value, or by throwing. -/
inductive Completion (α : Type) where
  | normal : α → Completion α
  | thrown : String → Completion α
  deriving DecidableEq, Repr

/-- Whether a completion is a normal return. -/
def Completion.isNormal {α : Type} : Completion α → Bool
  | .normal _ => true
  | .thrown _ => false

/-- A sequence of JavaScript statements over a mutable state `σ`. -/
def Script (σ α : Type) : Type := σ → Completion α × σ

/-- A statement that returns `a` and touches nothing. -/
def Script.pure {σ α : Type} (a : α) : Script σ α := fun s => (.normal a, s)

/-- Sequencing: a throw in the first part skips the rest, keeping the state. -/
def Script.bind {σ α β : Type} (m : Script σ α) (f : α → Script σ β) : Script σ β :=
  fun s =>
    match m s with
    | (.normal a, s1) => f a s1
    | (.thrown e, s1) => (.thrown e, s1)

instance {σ : Type} : Monad (Script σ) where
  pure := Script.pure
  bind := Script.bind

/-- Value a handler hands back to its caller. -/
inductive JSValue where
  | null
  | undefined
  deriving DecidableEq, Repr

/-! ## Request headers -/

/-- Request headers of a channel: a mapping from name to value, in order. -/
abbrev Headers := List (String × String)

/-- Value of the header called `name`, if the channel has one. -/
def getHeader : Headers → String → Option String
  | [], _ => none
  | (k, v) :: rest, name => if k = name then some v else getHeader rest name

/-- Modelled from the spec: the host's header mutation API, which is not part
of the repository.  `setHeader(name, value, merge)` with `merge = false`
overwrites the value of `name` (adding the header when it is absent).  With
`merge = true` the new value is joined to the old one; `main.js` never
passes `true`. -/
def setHeader : Headers → String → String → Bool → Headers
  | [], name, value, _ => [(name, value)]
  | (k, v) :: rest, name, value, merge =>
      if k = name then (k, if merge then v ++ ", " ++ value else value) :: rest
      else (k, v) :: setHeader rest name value merge

/-! ## The objects a handler sees -/

/-- The `subject` of an observer notification.  `httpChannel` says whether
`QueryInterface(Ci.nsIHttpChannel)` succeeds on it. -/
structure Subject where
  httpChannel : Bool
  URI : String
  headers : Headers
  deriving DecidableEq, Repr

/-- A notification delivered by `sdk/system/events`. -/
structure Event where
  type : String
  subject : Subject
  deriving DecidableEq, Repr

/-- A top-level window, as returned by `utils.getTopWindowForChannel`. -/
abbrev Window := String

/-- Modelled from the spec: the per-domain record kept by the heuristic
blocker (`lib/heuristicBlocker.js`, not in the sources at hand). -/
structure TrackerRecord where
  domain : String
  trackingScore : Nat
  seenOnSites : List String
  deriving DecidableEq, Repr

/-- The process-wide tracking table. -/
abbrev TrackingTable := List TrackerRecord

/-- Modelled from the spec: the decision of the policy engine
(`lib/contentPolicy.js`, not in the sources at hand). -/
inductive PolicyDecision where
  | allow
  | cookieblock
  | noaction
  | block
  deriving DecidableEq, Repr

/-- The collaborators of the two handlers (`lib/utils.js`,
`lib/contentPolicy.js`, `lib/heuristicBlocker.js` and the host channel), taken
as parameters.  Each may throw.  `headerRejection` is the host refusing a
header write (`some err` makes `setRequestHeader` throw `err`).  A
collaborator is handed the channel as it is at the time of the call; only
`updateHeuristics` changes state, the tracking table. -/
structure Collaborators where
  headerRejection : Subject → String → String → Bool → Option String
  isThirdPartyChannel : Subject → Completion Bool
  getTopWindowForChannel : Subject → Completion Window
  decide : TrackingTable → String → Window → Completion PolicyDecision
  updateHeuristics : Subject → TrackingTable → Completion Unit × TrackingTable

/-- Modelled from the spec: `ContentPolicy.Policy.shouldCookieblockRequest`
is the narrowed query of the policy engine, true exactly when the decision
is `cookieblock`. -/
def Collaborators.shouldCookieblockRequest (env : Collaborators)
    (table : TrackingTable) (uri : String) (win : Window) : Completion Bool :=
  match env.decide table uri win with
  | .normal d => .normal (d == PolicyDecision.cookieblock)
  | .thrown e => .thrown e

/-- A call made by a handler into a collaborator. -/
inductive Call where
  | QueryInterface
  | setRequestHeader (name value : String) (merge : Bool)
  | isThirdPartyChannel
  | getTopWindowForChannel
  | shouldCookieblockRequest (uri : String) (win : Window)
  | updateHeuristics
  deriving DecidableEq, Repr

/-- What one handler invocation can read and change: the channel of the
event, the tracking table, and the log of the calls it made. -/
structure Exchange where
  channel : Subject
  tracker : TrackingTable
  calls : List Call
  deriving DecidableEq, Repr

/-- Appends a call to the log. -/
def Exchange.record (x : Exchange) (c : Call) : Exchange :=
  { x with calls := x.calls ++ [c] }

/-! ## Steps of the handlers -/

/-- The step `event.subject.QueryInterface(Ci.nsIHttpChannel)`. -/
def QueryInterface : Script Exchange Unit := fun x =>
  if x.channel.httpChannel then (.normal (), x.record .QueryInterface)
  else (.thrown "NS_NOINTERFACE", x.record .QueryInterface)

/-- The step `channel.setRequestHeader(name, value, merge)`. -/
def setRequestHeader (env : Collaborators) (name value : String) (merge : Bool) :
    Script Exchange Unit := fun x =>
  match env.headerRejection x.channel name value merge with
  | some err => (.thrown err, x.record (.setRequestHeader name value merge))
  | none =>
      (.normal (),
        { x with
          channel := { x.channel with headers := setHeader x.channel.headers name value merge }
          calls := x.calls ++ [.setRequestHeader name value merge] })

/-- The step `utils.isThirdPartyChannel(channel)`. -/
def isThirdPartyChannel (env : Collaborators) : Script Exchange Bool := fun x =>
  (env.isThirdPartyChannel x.channel, x.record .isThirdPartyChannel)

/-- The step `utils.getTopWindowForChannel(channel)`. -/
def getTopWindowForChannel (env : Collaborators) : Script Exchange Window := fun x =>
  (env.getTopWindowForChannel x.channel, x.record .getTopWindowForChannel)

/-- The expression `channel.URI`. -/
def channelURI : Script Exchange String := fun x => (.normal x.channel.URI, x)

/-- The step `ContentPolicy.Policy.shouldCookieblockRequest(uri, aWin)`. -/
def shouldCookieblockRequest (env : Collaborators) (uri : String) (aWin : Window) :
    Script Exchange Bool := fun x =>
  (env.shouldCookieblockRequest x.tracker uri aWin,
    x.record (.shouldCookieblockRequest uri aWin))

/-- The step `heuristicBlocker.updateHeuristics(channel)`. -/
def updateHeuristics (env : Collaborators) : Script Exchange Unit := fun x =>
  let r := env.updateHeuristics x.channel x.tracker
  (r.1, { x with tracker := r.2, calls := x.calls ++ [.updateHeuristics] })

/-! ## The two handlers -/

/-- The handler of `http-on-examine-response`. -/
def onExamineResponse (env : Collaborators) : Script Exchange JSValue := do
  QueryInterface
  if !(← isThirdPartyChannel env) then
    return .null
  else
    updateHeuristics env
    return .undefined

/-- The handler of `http-on-modify-request`. -/
def onModifyRequest (env : Collaborators) : Script Exchange JSValue := do
  QueryInterface
  setRequestHeader env "DNT" "1" false
  if !(← isThirdPartyChannel env) then
    return .null
  else
    let aWin ← getTopWindowForChannel env
    if (← shouldCookieblockRequest env (← channelURI) aWin) then
      setRequestHeader env "Referer" "" false
    return .undefined

/-- The exchange a handler starts from when `event` is dispatched. -/
def Exchange.start (event : Event) (tracker : TrackingTable) : Exchange :=
  { channel := event.subject, tracker := tracker, calls := [] }

/-- No collaborator of the handlers throws, whatever it is asked. -/
def Collaborators.neverThrows (env : Collaborators) : Prop :=
  (∀ c n v m, env.headerRejection c n v m = none) ∧
  (∀ c, (env.isThirdPartyChannel c).isNormal = true) ∧
  (∀ c, (env.getTopWindowForChannel c).isNormal = true) ∧
  (∀ t u w, (env.decide t u w).isNormal = true) ∧
  (∀ c t, (env.updateHeuristics c t).1.isNormal = true)

/-- The answers of the collaborators do not depend on the request headers
of the channel they are asked about. -/
def Collaborators.headerBlind (env : Collaborators) : Prop :=
  ∀ (c : Subject) (hs : Headers),
    env.headerRejection { c with headers := hs } = env.headerRejection c ∧
    env.isThirdPartyChannel { c with headers := hs } = env.isThirdPartyChannel c ∧
    env.getTopWindowForChannel { c with headers := hs } = env.getTopWindowForChannel c

/-! ## The host: category manager and event source -/

/-- The functions `main.js` subscribes as observers. -/
inductive Listener where
  | onExamineResponse
  | onModifyRequest
  | pbUI_onStartup
  deriving DecidableEq, Repr

/-- One subscription held by the event source.  `once` marks a single-use
subscription made with `events.once`. -/
structure Subscription where
  type : String
  listener : Listener
  once : Bool
  deriving DecidableEq, Repr

/-- One entry of the category manager. -/
structure CategoryEntry where
  category : String
  entry : String
  value : String
  deriving DecidableEq, Repr

/-- A call made by `main` or `unload`, in the order the journal keeps. -/
inductive HostCall where
  | heuristicBlocker_init
  | userStorage_init
  | userStorage_sync
  | getService (contract : String)
  | addCategoryEntry (category entry value : String) (persist replace : Bool)
  | deleteCategoryEntry (category entry : String) (persist : Bool)
  | events_on (type : String) (listener : Listener) (strong : Bool)
  | events_once (type : String) (listener : Listener) (strong : Bool)
  | events_off (type : String) (listener : Listener)
  | pbUI_onShutdown
  | off_settingsMap
  | console_log (msg : String)
  deriving DecidableEq, Repr

/-- The record the event source keeps of one listener invocation: which
listener, for which notification, how it ended and what it called. -/
structure Dispatch where
  listener : Listener
  type : String
  completion : Completion JSValue
  calls : List Call
  deriving DecidableEq, Repr

/-- The state of the host process around the extension. -/
structure Host where
  categories : List CategoryEntry
  observers : List Subscription
  settingsListeners : List String
  tracker : TrackingTable
  journal : List HostCall
  dispatched : List Dispatch
  deriving DecidableEq, Repr

/-- A host with no subscription and no registry entry. -/
def Host.fresh (tracker : TrackingTable) : Host :=
  { categories := [], observers := [], settingsListeners := [], tracker := tracker,
    journal := [], dispatched := [] }

/-- Appends a call to the journal. -/
def Host.log (h : Host) (c : HostCall) : Host :=
  { h with journal := h.journal ++ [c] }

/-- The modules of the repository that `main.js` requires and that are not in
the sources at hand, taken as parameters.  Each call may throw.  `contract`
is `ContentPolicy.ContentPolicyFactory.contract`. -/
structure Modules where
  handlers : Collaborators
  contract : String
  heuristicBlocker_init : TrackingTable → Completion Unit × TrackingTable
  userStorage_init : Completion Unit
  userStorage_sync : Completion Unit
  pbUI_onStartup : Event → Completion Unit
  pbUI_onShutdown : Completion Unit

/-- The step `heuristicBlocker.init()`. -/
def heuristicBlocker_init (env : Modules) : Script Host Unit := fun h =>
  let r := env.heuristicBlocker_init h.tracker
  (r.1, { h with tracker := r.2, journal := h.journal ++ [.heuristicBlocker_init] })

/-- The step `userStorage.init()`. -/
def userStorage_init (env : Modules) : Script Host Unit := fun h =>
  (env.userStorage_init, h.log .userStorage_init)

/-- The step `userStorage.sync()`. -/
def userStorage_sync (env : Modules) : Script Host Unit := fun h =>
  (env.userStorage_sync, h.log .userStorage_sync)

/-- The step `Cc["@mozilla.org/categorymanager;1"].getService(Ci.nsICategoryManager)`. -/
def getService (contract : String) : Script Host Unit := fun h =>
  (.normal (), h.log (.getService contract))

/-- Whether a registry entry is the one called `entry` in `category`. -/
def CategoryEntry.named (c : CategoryEntry) (category entry : String) : Bool :=
  c.category = category && c.entry = entry

/-- Modelled from the spec: the interception registry of the host.  The step
`categoryManager.addCategoryEntry(category, entry, value, persist, replace)`
registers the named entry; an entry of the same name is overwritten when
`replace` is set and kept otherwise (`main.js` always sets it). -/
def addCategoryEntry (category entry value : String) (persist replace : Bool) :
    Script Host Unit := fun h =>
  let others := h.categories.filter (fun c => !c.named category entry)
  (.normal (),
    { h with
      categories :=
        if replace || !h.categories.any (fun c => c.named category entry) then
          others ++ [⟨category, entry, value⟩]
        else h.categories
      journal := h.journal ++ [.addCategoryEntry category entry value persist replace] })

/-- Modelled from the spec: the step
`categoryManager.deleteCategoryEntry(category, entry, persist)` removes the
named entry from the registry. -/
def deleteCategoryEntry (category entry : String) (persist : Bool) : Script Host Unit :=
  fun h =>
    (.normal (),
      { h with
        categories := h.categories.filter (fun c => !c.named category entry)
        journal := h.journal ++ [.deleteCategoryEntry category entry persist] })

/-- Whether a subscription is the one of `listener` to `type`. -/
def Subscription.isFor (s : Subscription) (type : String) (listener : Listener) : Bool :=
  s.type = type && s.listener = listener

/-- Modelled from the spec: `subscribe(eventName, handler)` of the event
source.  The handlers of an event name form an ordered set, so a second
subscription of the same handler adds nothing. -/
def events_on (type : String) (listener : Listener) (strong : Bool) : Script Host Unit :=
  fun h =>
    (.normal (),
      { h with
        observers :=
          if h.observers.any (fun s => s.isFor type listener) then h.observers
          else h.observers ++ [⟨type, listener, false⟩]
        journal := h.journal ++ [.events_on type listener strong] })

/-- Modelled from the spec: `subscribeOnce(eventName, handler)` of the event
source, a single-use subscription that the event source removes by itself
once it has fired. -/
def events_once (type : String) (listener : Listener) (strong : Bool) : Script Host Unit :=
  fun h =>
    (.normal (),
      { h with
        observers :=
          if h.observers.any (fun s => s.isFor type listener) then h.observers
          else h.observers ++ [⟨type, listener, true⟩]
        journal := h.journal ++ [.events_once type listener strong] })

/-- Modelled from the spec: `unsubscribe(eventName, handler)` of the event
source. -/
def events_off (type : String) (listener : Listener) : Script Host Unit := fun h =>
  (.normal (),
    { h with
      observers := h.observers.filter (fun s => !s.isFor type listener)
      journal := h.journal ++ [.events_off type listener] })

/-- The step `pbUI.onShutdown()`, which removes the web progress listener. -/
def pbUI_onShutdown (env : Modules) : Script Host Unit := fun h =>
  (env.pbUI_onShutdown, h.log .pbUI_onShutdown)

/-- The step `off(pbUI.settingsMap)`, which removes the settings listeners. -/
def off_settingsMap : Script Host Unit := fun h =>
  (.normal (), { h with settingsListeners := [], journal := h.journal ++ [.off_settingsMap] })

/-- The step `console.log(msg)`. -/
def console_log (msg : String) : Script Host Unit := fun h =>
  (.normal (), h.log (.console_log msg))

/-! ## Startup and shutdown -/

/-- The function `main(options)`; `options` is not read. -/
def main (env : Modules) : Script Host Unit := do
  heuristicBlocker_init env
  userStorage_init env
  userStorage_sync env
  getService "@mozilla.org/categorymanager;1"
  addCategoryEntry "content-policy" "PrivacyBadgerContentPolicy" env.contract false true
  events_on "http-on-examine-response" .onExamineResponse false
  events_on "http-on-modify-request" .onModifyRequest false
  events_once "http-on-modify-request" .pbUI_onStartup false
  console_log "started up!"

/-- The function `unload(reason)`; `reason` is not read. -/
def unload (env : Modules) : Script Host Unit := do
  getService "@mozilla.org/categorymanager;1"
  deleteCategoryEntry "content-policy" "PrivacyBadgerContentPolicy" false
  events_off "http-on-examine-response" .onExamineResponse
  events_off "http-on-modify-request" .onModifyRequest
  pbUI_onShutdown env
  off_settingsMap
  console_log "successful unload"

/-! ## Delivery of notifications -/

/-- The body the event source runs for a listener.  The two handlers are the
functions of `main.js`; `pbUI.onStartup` lives in `lib/ui.js`, which is not
in the sources at hand, so only the way it completes is a parameter. -/
def Listener.run (env : Modules) (event : Event) : Listener → Script Exchange JSValue
  | .onExamineResponse => PrivacyBadger.onExamineResponse env.handlers
  | .onModifyRequest => PrivacyBadger.onModifyRequest env.handlers
  | .pbUI_onStartup => fun x =>
      match env.pbUI_onStartup event with
      | .normal _ => (.normal .undefined, x)
      | .thrown e => (.thrown e, x)

/-- Modelled from the spec: the event source invokes one subscribed listener.
The invocation is isolated: however it ends, the completion is recorded and
delivery goes on.  A single-use subscription is removed once it has fired. -/
def notifyListener (env : Modules) (event : Event) (acc : Host × Subject)
    (s : Subscription) : Host × Subject :=
  let r := s.listener.run env event { channel := acc.2, tracker := acc.1.tracker, calls := [] }
  ({ acc.1 with
      tracker := r.2.tracker
      observers := if s.once then acc.1.observers.filter (fun t => t ≠ s) else acc.1.observers
      dispatched := acc.1.dispatched ++ [⟨s.listener, event.type, r.1, r.2.calls⟩] },
    r.2.channel)

/-- Modelled from the spec: the event source delivers `event` to the
listeners subscribed to its type, in the order of their registration. -/
def emit (env : Modules) (host : Host) (event : Event) : Host × Subject :=
  (host.observers.filter (fun s => s.type = event.type)).foldl
    (notifyListener env event) (host, event.subject)

/-- Delivery of a sequence of events; the subject of an event is dropped once
its listeners have returned. -/
def emitAll (env : Modules) (host : Host) (events : List Event) : Host :=
  events.foldl (fun h e => (emit env h e).1) host

/-! ## Resources acquired and released -/

/-- A resource the extension holds in the host. -/
inductive Resource where
  | categoryEntry (category entry : String)
  | subscription (type : String) (listener : Listener)
  deriving DecidableEq, Repr

/-- The resource a call acquires, if it acquires one. -/
def HostCall.acquires : HostCall → Option Resource
  | .addCategoryEntry category entry _ _ _ => some (.categoryEntry category entry)
  | .events_on type listener _ => some (.subscription type listener)
  | .events_once type listener _ => some (.subscription type listener)
  | _ => none

/-- The resource a call releases, if it releases one. -/
def HostCall.releases : HostCall → Option Resource
  | .deleteCategoryEntry category entry _ => some (.categoryEntry category entry)
  | .events_off type listener => some (.subscription type listener)
  | _ => none


/-! ## Concrete collaborators and inputs -/

/-- Collaborators that never throw: every channel is third-party and the
policy answers `cookieblock`. -/
def cookieblockHandlers : Collaborators where
  headerRejection := fun _ _ _ _ => none
  isThirdPartyChannel := fun _ => .normal true
  getTopWindowForChannel := fun _ => .normal "a.com"
  decide := fun _ _ _ => .normal .cookieblock
  updateHeuristics := fun c t => (.normal (), t ++ [⟨c.URI, 1, ["a.com"]⟩])

/-- Collaborators that never throw and classify every channel as first-party. -/
def firstPartyHandlers : Collaborators :=
  { cookieblockHandlers with isThirdPartyChannel := fun _ => .normal false }

/-- Collaborators that never throw: every channel is third-party and the
policy answers `block`. -/
def blockHandlers : Collaborators :=
  { cookieblockHandlers with decide := fun _ _ _ => .normal .block }

/-- Collaborators that never throw, with a policy that depends on the
window: every channel is third-party, its top window is `a.com`, and the
policy answers `block` under `a.com` and `cookieblock` under any other
window. -/
def windowBlockHandlers : Collaborators :=
  { cookieblockHandlers with
    decide := fun _ _ win => if win = "a.com" then .normal .block else .normal .cookieblock }

/-- Collaborators whose classifier throws. -/
def faultyHandlers : Collaborators :=
  { cookieblockHandlers with isThirdPartyChannel := fun _ => .thrown "classifier failure" }

/-- Collaborators whose window lookup throws, after the classifier has
answered third-party. -/
def windowFaultHandlers : Collaborators :=
  { cookieblockHandlers with getTopWindowForChannel := fun _ => .thrown "no top window" }

/-- A request to `tracker.net` made under `a.com`, with a referrer and an
earlier `DNT` value. -/
def trackerRequest : Event :=
  { type := "http-on-modify-request"
    subject :=
      { httpChannel := true
        URI := "http://tracker.net/pixel"
        headers := [("Referer", "http://a.com/"), ("DNT", "0"), ("Accept", "*/*")] } }

/-- The response to `trackerRequest`. -/
def trackerResponse : Event :=
  { trackerRequest with type := "http-on-examine-response" }

/-- Modules that never throw, around `cookieblockHandlers`. -/
def quietModules : Modules where
  handlers := cookieblockHandlers
  contract := "@eff.org/privacybadger/content-policy;1"
  heuristicBlocker_init := fun t => (.normal (), t)
  userStorage_init := .normal ()
  userStorage_sync := .normal ()
  pbUI_onStartup := fun _ => .normal ()
  pbUI_onShutdown := .normal ()

/-- The calls a lifecycle function makes when run on `h`, in order. -/
def callsOf (script : Script Host Unit) (h : Host) : List HostCall :=
  (script { h with journal := [] }).2.journal

/-- The resources `main` acquires, in the order it acquires them. -/
def acquisitions (env : Modules) (h : Host) : List Resource :=
  (callsOf (main env) h).filterMap HostCall.acquires

/-- The resources `unload` releases, in the order it releases them. -/
def releases (env : Modules) (h : Host) : List Resource :=
  (callsOf (unload env) h).filterMap HostCall.releases

/-- The subscription of `onExamineResponse` made by `main`. -/
def responseSubscription : Subscription :=
  ⟨"http-on-examine-response", .onExamineResponse, false⟩

/-- The subscription of `onModifyRequest` made by `main`. -/
def requestSubscription : Subscription :=
  ⟨"http-on-modify-request", .onModifyRequest, false⟩

/-- The single-use subscription of `pbUI.onStartup` made by `main`. -/
def startupSubscription : Subscription :=
  ⟨"http-on-modify-request", .pbUI_onStartup, true⟩

/-! # Theorems -/

/-! ## Request headers: lookup after a write -/

theorem getHeader_setHeader_same (h : Headers) (n v : String) :
    getHeader (setHeader h n v false) n = some v := by
  induction h with
  | nil => simp [setHeader, getHeader]
  | cons p rest ih =>
    obtain ⟨k, w⟩ := p
    by_cases hk : k = n
    · simp [setHeader, getHeader, hk]
    · simp [setHeader, getHeader, hk, ih]

theorem getHeader_setHeader_other (h : Headers) (n v : String) (m : Bool) (n' : String)
    (hne : n' ≠ n) : getHeader (setHeader h n v m) n' = getHeader h n' := by
  induction h with
  | nil => simp [setHeader, getHeader, Ne.symm hne]
  | cons p rest ih =>
    obtain ⟨k, w⟩ := p
    by_cases hk : k = n
    · subst hk
      simp [setHeader, getHeader, Ne.symm hne]
    · by_cases hk2 : k = n'
      · subst hk2
        simp [setHeader, getHeader, hne]
      · simp [setHeader, getHeader, hk, hk2, ih]

theorem setHeader_of_getHeader (h : Headers) (n v : String)
    (hg : getHeader h n = some v) : setHeader h n v false = h := by
  induction h with
  | nil => simp [getHeader] at hg
  | cons p rest ih =>
    obtain ⟨k, w⟩ := p
    by_cases hk : k = n
    · simp [getHeader, hk] at hg
      simp [setHeader, hk, hg]
    · simp [getHeader, hk] at hg
      simp [setHeader, hk, ih hg]

/-- Symbolic run of `onModifyRequest`: the completion, the channel and the
call log on each of its paths. -/
theorem onModifyRequest_run (env : Collaborators) (http : Bool) (uri : String) (hs : Headers)
    (tr : TrackingTable) (calls : List Call) :
    onModifyRequest env ⟨⟨http, uri, hs⟩, tr, calls⟩ =
      if http = false then
        (.thrown "NS_NOINTERFACE", ⟨⟨http, uri, hs⟩, tr, calls ++ [.QueryInterface]⟩)
      else
        match env.headerRejection ⟨http, uri, hs⟩ "DNT" "1" false with
        | some err =>
            (.thrown err,
              ⟨⟨http, uri, hs⟩, tr, calls ++ [.QueryInterface, .setRequestHeader "DNT" "1" false]⟩)
        | none =>
          match env.isThirdPartyChannel ⟨http, uri, setHeader hs "DNT" "1" false⟩ with
          | .thrown e =>
              (.thrown e, ⟨⟨http, uri, setHeader hs "DNT" "1" false⟩, tr,
                calls ++ [.QueryInterface, .setRequestHeader "DNT" "1" false,
                  .isThirdPartyChannel]⟩)
          | .normal false =>
              (.normal .null, ⟨⟨http, uri, setHeader hs "DNT" "1" false⟩, tr,
                calls ++ [.QueryInterface, .setRequestHeader "DNT" "1" false,
                  .isThirdPartyChannel]⟩)
          | .normal true =>
            match env.getTopWindowForChannel ⟨http, uri, setHeader hs "DNT" "1" false⟩ with
            | .thrown e =>
                (.thrown e, ⟨⟨http, uri, setHeader hs "DNT" "1" false⟩, tr,
                  calls ++ [.QueryInterface, .setRequestHeader "DNT" "1" false,
                    .isThirdPartyChannel, .getTopWindowForChannel]⟩)
            | .normal w =>
              match env.shouldCookieblockRequest tr uri w with
              | .thrown e =>
                  (.thrown e, ⟨⟨http, uri, setHeader hs "DNT" "1" false⟩, tr,
                    calls ++ [.QueryInterface, .setRequestHeader "DNT" "1" false,
                      .isThirdPartyChannel, .getTopWindowForChannel,
                      .shouldCookieblockRequest uri w]⟩)
              | .normal false =>
                  (.normal .undefined, ⟨⟨http, uri, setHeader hs "DNT" "1" false⟩, tr,
                    calls ++ [.QueryInterface, .setRequestHeader "DNT" "1" false,
                      .isThirdPartyChannel, .getTopWindowForChannel,
                      .shouldCookieblockRequest uri w]⟩)
              | .normal true =>
                match env.headerRejection ⟨http, uri, setHeader hs "DNT" "1" false⟩
                    "Referer" "" false with
                | some err =>
                    (.thrown err, ⟨⟨http, uri, setHeader hs "DNT" "1" false⟩, tr,
                      calls ++ [.QueryInterface, .setRequestHeader "DNT" "1" false,
                        .isThirdPartyChannel, .getTopWindowForChannel,
                        .shouldCookieblockRequest uri w,
                        .setRequestHeader "Referer" "" false]⟩)
                | none =>
                    (.normal .undefined,
                      ⟨⟨http, uri, setHeader (setHeader hs "DNT" "1" false) "Referer" "" false⟩,
                        tr,
                        calls ++ [.QueryInterface, .setRequestHeader "DNT" "1" false,
                          .isThirdPartyChannel, .getTopWindowForChannel,
                          .shouldCookieblockRequest uri w,
                          .setRequestHeader "Referer" "" false]⟩) := by
  simp only [onModifyRequest, bind, Script.bind, QueryInterface, setRequestHeader,
    isThirdPartyChannel, getTopWindowForChannel, shouldCookieblockRequest, channelURI,
    Exchange.record, pure, Script.pure]
  cases http
  · simp
  · cases h2 : env.headerRejection ⟨true, uri, hs⟩ "DNT" "1" false
    · cases h3 : env.isThirdPartyChannel ⟨true, uri, setHeader hs "DNT" "1" false⟩ with
      | thrown e => simp [h2, h3]
      | normal b =>
        cases b
        · simp [h2, h3, Script.pure]
        · cases h4 : env.getTopWindowForChannel ⟨true, uri, setHeader hs "DNT" "1" false⟩ with
          | thrown e => simp [h2, h3, h4, Script.bind, getTopWindowForChannel, Exchange.record]
          | normal w =>
            cases h5 : env.shouldCookieblockRequest tr uri w with
            | thrown e =>
              simp [h2, h3, h4, h5, Script.bind, getTopWindowForChannel, Exchange.record,
                channelURI, shouldCookieblockRequest]
            | normal b =>
              cases b
              · simp [h2, h3, h4, h5, Script.bind, Script.pure, getTopWindowForChannel,
                  Exchange.record, channelURI, shouldCookieblockRequest]
              · cases h6 : env.headerRejection ⟨true, uri, setHeader hs "DNT" "1" false⟩
                    "Referer" "" false <;>
                simp [h2, h3, h4, h5, h6, Script.bind, Script.pure, getTopWindowForChannel,
                  Exchange.record, channelURI, shouldCookieblockRequest, setRequestHeader]
    · simp [h2]

/-- Symbolic run of `onExamineResponse` on each of its paths. -/
theorem onExamineResponse_run (env : Collaborators) (http : Bool) (uri : String)
    (hs : Headers) (tr : TrackingTable) (calls : List Call) :
    onExamineResponse env ⟨⟨http, uri, hs⟩, tr, calls⟩ =
      if http = false then
        (.thrown "NS_NOINTERFACE", ⟨⟨http, uri, hs⟩, tr, calls ++ [.QueryInterface]⟩)
      else
        match env.isThirdPartyChannel ⟨http, uri, hs⟩ with
        | .thrown e =>
            (.thrown e, ⟨⟨http, uri, hs⟩, tr, calls ++ [.QueryInterface, .isThirdPartyChannel]⟩)
        | .normal false =>
            (.normal .null,
              ⟨⟨http, uri, hs⟩, tr, calls ++ [.QueryInterface, .isThirdPartyChannel]⟩)
        | .normal true =>
            (match (env.updateHeuristics ⟨http, uri, hs⟩ tr).1 with
              | .normal _ => .normal .undefined
              | .thrown e => .thrown e,
              ⟨⟨http, uri, hs⟩, (env.updateHeuristics ⟨http, uri, hs⟩ tr).2,
                calls ++ [.QueryInterface, .isThirdPartyChannel, .updateHeuristics]⟩) := by
  simp only [onExamineResponse, bind, Script.bind, QueryInterface, isThirdPartyChannel,
    updateHeuristics, Exchange.record, pure, Script.pure]
  cases http
  · simp
  · cases h3 : env.isThirdPartyChannel ⟨true, uri, hs⟩ with
    | thrown e => simp [h3]
    | normal b =>
      cases b
      · simp [h3, Script.pure]
      · cases h4 : (env.updateHeuristics ⟨true, uri, hs⟩ tr).1 <;>
        simp [h3, h4, Script.bind, Script.pure, updateHeuristics]

/-- A completion is normal exactly when it carries a value. -/
theorem Completion.isNormal_iff {α : Type} (c : Completion α) :
    c.isNormal = true ↔ ∃ a, c = .normal a := by
  cases c <;> simp [Completion.isNormal]

/-! ## The request handler -/

/-- C1. Whenever `onModifyRequest` returns, the `DNT` request header of the
channel is exactly `"1"`, whatever the headers were before and whether the
channel is first-party or third-party, and the write was made with
`merge = false`; and the handler does return when the subject is an HTTP
channel and no collaborator throws. -/
theorem onModifyRequest_sets_DNT (env : Collaborators) (event : Event)
    (tracker : TrackingTable) :
    ((onModifyRequest env (Exchange.start event tracker)).1.isNormal = true →
      getHeader (onModifyRequest env (Exchange.start event tracker)).2.channel.headers "DNT"
          = some "1" ∧
        Call.setRequestHeader "DNT" "1" false ∈
          (onModifyRequest env (Exchange.start event tracker)).2.calls) ∧
    (event.subject.httpChannel = true → env.neverThrows →
      (onModifyRequest env (Exchange.start event tracker)).1.isNormal = true) := by
  obtain ⟨ty, ⟨http, uri, hs⟩⟩ := event
  simp only [Exchange.start]
  rw [onModifyRequest_run]
  have hD := getHeader_setHeader_same hs "DNT" "1"
  have hR : getHeader (setHeader (setHeader hs "DNT" "1" false) "Referer" "" false) "DNT"
      = some "1" := by
    rw [getHeader_setHeader_other _ _ _ _ _ (by decide)]
    exact hD
  refine ⟨?_, ?_⟩
  · split
    · simp [Completion.isNormal]
    · repeat' split
      all_goals simp [Completion.isNormal, hD, hR]
  · rintro hq ⟨h1, h2, h3, h4, _⟩
    subst hq
    obtain ⟨tp, htp⟩ := (Completion.isNormal_iff _).1
      (h2 ⟨true, uri, setHeader hs "DNT" "1" false⟩)
    obtain ⟨w, hw⟩ := (Completion.isNormal_iff _).1
      (h3 ⟨true, uri, setHeader hs "DNT" "1" false⟩)
    obtain ⟨d, hd⟩ := (Completion.isNormal_iff _).1 (h4 tracker uri w)
    have hcb : env.shouldCookieblockRequest tracker uri w
        = .normal (d == PolicyDecision.cookieblock) := by
      simp [Collaborators.shouldCookieblockRequest, hd]
    cases tp <;> cases hc : (d == PolicyDecision.cookieblock) <;>
      simp [h1, htp, hw, hcb, hc, Completion.isNormal]

/-- Witness of C1 on a request that already carries `DNT: 0`. -/
theorem onModifyRequest_sets_DNT_witness :
    (onModifyRequest cookieblockHandlers (Exchange.start trackerRequest [])).1
        = .normal .undefined ∧
      getHeader trackerRequest.subject.headers "DNT" = some "0" ∧
      getHeader
          (onModifyRequest cookieblockHandlers (Exchange.start trackerRequest [])).2.channel.headers
          "DNT" = some "1" :=
  ⟨by decide, by decide,
    ((onModifyRequest_sets_DNT cookieblockHandlers trackerRequest []).1 (by decide)).1⟩

/-- C2. The handler writes `Referer` exactly when it got as far as the policy
query and both `utils.isThirdPartyChannel(channel)` and
`shouldCookieblockRequest(channel.URI, aWin)` returned true; the write is
`setRequestHeader("Referer", "", false)`, after which the header is the empty
string; in every other case the `Referer` header keeps its prior value. -/
theorem onModifyRequest_Referer (env : Collaborators) (event : Event)
    (tracker : TrackingTable) :
    (Call.setRequestHeader "Referer" "" false ∈
        (onModifyRequest env (Exchange.start event tracker)).2.calls ↔
      (event.subject.httpChannel = true ∧
        env.headerRejection event.subject "DNT" "1" false = none ∧
        env.isThirdPartyChannel
            { event.subject with headers := setHeader event.subject.headers "DNT" "1" false }
          = .normal true ∧
        ∃ aWin,
          env.getTopWindowForChannel
              { event.subject with headers := setHeader event.subject.headers "DNT" "1" false }
            = .normal aWin ∧
          env.shouldCookieblockRequest tracker event.subject.URI aWin = .normal true)) ∧
    (Call.setRequestHeader "Referer" "" false ∈
        (onModifyRequest env (Exchange.start event tracker)).2.calls →
      (onModifyRequest env (Exchange.start event tracker)).1.isNormal = true →
      getHeader (onModifyRequest env (Exchange.start event tracker)).2.channel.headers
        "Referer" = some "") ∧
    (Call.setRequestHeader "Referer" "" false ∉
        (onModifyRequest env (Exchange.start event tracker)).2.calls →
      getHeader (onModifyRequest env (Exchange.start event tracker)).2.channel.headers
        "Referer" = getHeader event.subject.headers "Referer") := by
  obtain ⟨ty, ⟨http, uri, hs⟩⟩ := event
  simp only [Exchange.start]
  rw [onModifyRequest_run]
  have hR := getHeader_setHeader_same (setHeader hs "DNT" "1" false) "Referer" ""
  have hD : getHeader (setHeader hs "DNT" "1" false) "Referer" = getHeader hs "Referer" :=
    getHeader_setHeader_other hs "DNT" "1" false "Referer" (by decide)
  cases http
  · simp
  · cases h2 : env.headerRejection ⟨true, uri, hs⟩ "DNT" "1" false with
    | some err => simp [h2]
    | none =>
      cases h3 : env.isThirdPartyChannel ⟨true, uri, setHeader hs "DNT" "1" false⟩ with
      | thrown e => simp [h2, h3, hD]
      | normal tp =>
        cases tp
        · simp [h2, h3, hD]
        · cases h4 : env.getTopWindowForChannel ⟨true, uri, setHeader hs "DNT" "1" false⟩ with
          | thrown e => simp [h2, h3, h4, hD]
          | normal w =>
            cases h5 : env.shouldCookieblockRequest tracker uri w with
            | thrown e => simp [h2, h3, h4, h5, hD]
            | normal cb =>
              cases cb
              · simp [h2, h3, h4, h5, hD]
              · cases h6 : env.headerRejection ⟨true, uri, setHeader hs "DNT" "1" false⟩
                    "Referer" "" false <;>
                simp [h2, h3, h4, h5, h6, hD, hR, Completion.isNormal]

/-- Witness of C2: the referrer of a cookie-blocked third-party request is
cleared, the referrer of a first-party request is kept. -/
theorem onModifyRequest_Referer_witness :
    getHeader
        (onModifyRequest cookieblockHandlers (Exchange.start trackerRequest [])).2.channel.headers
        "Referer" = some "" ∧
      getHeader
        (onModifyRequest firstPartyHandlers (Exchange.start trackerRequest [])).2.channel.headers
        "Referer" = some "http://a.com/" :=
  ⟨(onModifyRequest_Referer cookieblockHandlers trackerRequest []).2.1 (by decide) (by decide),
    (onModifyRequest_Referer firstPartyHandlers trackerRequest []).2.2 (by decide)⟩

/-- C3. On a first-party channel (`utils.isThirdPartyChannel` returns false)
`onModifyRequest` returns `null` without consulting the policy engine:
neither `getTopWindowForChannel` nor `shouldCookieblockRequest` is called,
the only header written is `DNT`, every other header including `Referer`
keeps its value, and the tracking table is untouched. -/
theorem onModifyRequest_firstParty (env : Collaborators) (event : Event)
    (tracker : TrackingTable)
    (hq : event.subject.httpChannel = true)
    (hdnt : env.headerRejection event.subject "DNT" "1" false = none)
    (hfirst : env.isThirdPartyChannel
        { event.subject with headers := setHeader event.subject.headers "DNT" "1" false }
      = .normal false) :
    (onModifyRequest env (Exchange.start event tracker)).1 = .normal .null ∧
    (onModifyRequest env (Exchange.start event tracker)).2.calls
      = [.QueryInterface, .setRequestHeader "DNT" "1" false, .isThirdPartyChannel] ∧
    Call.getTopWindowForChannel ∉ (onModifyRequest env (Exchange.start event tracker)).2.calls ∧
    (∀ uri win, Call.shouldCookieblockRequest uri win ∉
      (onModifyRequest env (Exchange.start event tracker)).2.calls) ∧
    (onModifyRequest env (Exchange.start event tracker)).2.channel.headers
      = setHeader event.subject.headers "DNT" "1" false ∧
    (∀ name, name ≠ "DNT" →
      getHeader (onModifyRequest env (Exchange.start event tracker)).2.channel.headers name
        = getHeader event.subject.headers name) ∧
    (onModifyRequest env (Exchange.start event tracker)).2.tracker = tracker := by
  obtain ⟨ty, ⟨http, uri, hs⟩⟩ := event
  simp only at hq hdnt hfirst
  subst hq
  simp only [Exchange.start]
  rw [onModifyRequest_run]
  simp only [hdnt, hfirst]
  refine ⟨by simp, by simp, by simp, by simp, by simp, ?_, by simp⟩
  intro name hname
  simpa using getHeader_setHeader_other hs "DNT" "1" false name hname

/-- Witness of C3 on a first-party request that carries a referrer. -/
theorem onModifyRequest_firstParty_witness :
    (onModifyRequest firstPartyHandlers (Exchange.start trackerRequest [])).1 = .normal .null ∧
      (onModifyRequest firstPartyHandlers (Exchange.start trackerRequest [])).2.channel.headers
        = [("Referer", "http://a.com/"), ("DNT", "1"), ("Accept", "*/*")] :=
  ⟨(onModifyRequest_firstParty firstPartyHandlers trackerRequest [] (by decide) (by decide)
      (by decide)).1,
    by decide⟩

/-! ## The response handler -/

/-- C4. The handler `onExamineResponse` calls
`heuristicBlocker.updateHeuristics(channel)` exactly once when
`utils.isThirdPartyChannel(channel)` returns true, handing it the channel and
the current table, and not at all otherwise: a first-party response, for
which the handler returns `null`, leaves the tracking table unchanged. -/
theorem onExamineResponse_updateHeuristics (env : Collaborators) (event : Event)
    (tracker : TrackingTable) :
    (event.subject.httpChannel = true ∧
        env.isThirdPartyChannel event.subject = .normal true →
      (onExamineResponse env (Exchange.start event tracker)).2.calls.count .updateHeuristics = 1 ∧
      (onExamineResponse env (Exchange.start event tracker)).2.tracker
        = (env.updateHeuristics event.subject tracker).2) ∧
    (¬(event.subject.httpChannel = true ∧
        env.isThirdPartyChannel event.subject = .normal true) →
      (onExamineResponse env (Exchange.start event tracker)).2.calls.count .updateHeuristics = 0 ∧
      (onExamineResponse env (Exchange.start event tracker)).2.tracker = tracker) ∧
    (event.subject.httpChannel = true ∧
        env.isThirdPartyChannel event.subject = .normal false →
      (onExamineResponse env (Exchange.start event tracker)).1 = .normal .null) := by
  obtain ⟨ty, ⟨http, uri, hs⟩⟩ := event
  simp only [Exchange.start]
  rw [onExamineResponse_run]
  cases http
  · simp
  · cases h3 : env.isThirdPartyChannel ⟨true, uri, hs⟩ with
    | thrown e => simp [h3, List.count_cons]
    | normal tp => cases tp <;> simp [h3, List.count_cons]

/-- Witness of C4: a third-party response adds a record to the table, a
first-party response adds none. -/
theorem onExamineResponse_updateHeuristics_witness :
    (onExamineResponse cookieblockHandlers (Exchange.start trackerResponse [])).2.tracker
        = [⟨"http://tracker.net/pixel", 1, ["a.com"]⟩] ∧
      (onExamineResponse firstPartyHandlers (Exchange.start trackerResponse [])).2.tracker = [] :=
  ⟨((onExamineResponse_updateHeuristics cookieblockHandlers trackerResponse []).1
      (by decide)).2,
    ((onExamineResponse_updateHeuristics firstPartyHandlers trackerResponse []).2.1
      (by decide)).2⟩

/-! ## Blocked requests -/

/-- C6, as the claim states it, fails: on a third-party request whose policy
decision is `block` the handler still writes the `DNT` header. -/
theorem onModifyRequest_block_counterexample :
    blockHandlers.decide [] trackerRequest.subject.URI "a.com" = .normal .block ∧
      Call.setRequestHeader "DNT" "1" false ∈
        (onModifyRequest blockHandlers (Exchange.start trackerRequest [])).2.calls ∧
      (onModifyRequest blockHandlers (Exchange.start trackerRequest [])).2.channel.headers
        ≠ trackerRequest.subject.headers := by
  decide

/-- C6, amended. On a request whose policy decision is `block` (the decision
of the policy engine for the URI of the channel and the top window that
`utils.getTopWindowForChannel` returns for it) the handler never clears
`Referer`, and it still sets `DNT`: once the subject is an HTTP channel and
the host accepts the write, `DNT` is `"1"` and every other header keeps its
value. -/
theorem onModifyRequest_block (env : Collaborators) (event : Event) (tracker : TrackingTable)
    (hq : event.subject.httpChannel = true)
    (hdnt : env.headerRejection event.subject "DNT" "1" false = none)
    (hblock : ∀ win,
      env.getTopWindowForChannel
          { event.subject with headers := setHeader event.subject.headers "DNT" "1" false }
        = .normal win →
      env.decide tracker event.subject.URI win = .normal .block) :
    Call.setRequestHeader "DNT" "1" false ∈
      (onModifyRequest env (Exchange.start event tracker)).2.calls ∧
    Call.setRequestHeader "Referer" "" false ∉
      (onModifyRequest env (Exchange.start event tracker)).2.calls ∧
    (onModifyRequest env (Exchange.start event tracker)).2.channel.headers
      = setHeader event.subject.headers "DNT" "1" false ∧
    getHeader (onModifyRequest env (Exchange.start event tracker)).2.channel.headers "DNT"
      = some "1" ∧
    (∀ name, name ≠ "DNT" →
      getHeader (onModifyRequest env (Exchange.start event tracker)).2.channel.headers name
        = getHeader event.subject.headers name) := by
  obtain ⟨ty, ⟨http, uri, hs⟩⟩ := event
  simp only at hq hdnt hblock
  subst hq
  have hD := getHeader_setHeader_same hs "DNT" "1"
  have hO : ∀ name, name ≠ "DNT" →
      getHeader (setHeader hs "DNT" "1" false) name = getHeader hs name :=
    fun name hname => getHeader_setHeader_other hs "DNT" "1" false name hname
  simp only [Exchange.start]
  rw [onModifyRequest_run]
  simp only [hdnt]
  cases h3 : env.isThirdPartyChannel ⟨true, uri, setHeader hs "DNT" "1" false⟩ with
  | thrown e => simpa [h3, hD] using hO
  | normal tp =>
    cases tp
    · simpa [h3, hD] using hO
    · cases h4 : env.getTopWindowForChannel ⟨true, uri, setHeader hs "DNT" "1" false⟩ with
      | thrown e => simpa [h3, h4, hD] using hO
      | normal w =>
        have hcb : env.shouldCookieblockRequest tracker uri w = .normal false := by
          simp [Collaborators.shouldCookieblockRequest, hblock w h4]
        simpa [h3, h4, hcb, hD] using hO

/-- Witness of C6 amended, on a third-party request that the policy blocks
under its own top window and would cookie-block under any other. -/
theorem onModifyRequest_block_witness :
    windowBlockHandlers.decide [] trackerRequest.subject.URI "a.com" = .normal .block ∧
      windowBlockHandlers.decide [] trackerRequest.subject.URI "b.org"
        = .normal .cookieblock ∧
      (onModifyRequest windowBlockHandlers
          (Exchange.start trackerRequest [])).2.channel.headers
        = [("Referer", "http://a.com/"), ("DNT", "1"), ("Accept", "*/*")] :=
  ⟨by decide, by decide,
    (onModifyRequest_block windowBlockHandlers trackerRequest [] (by decide) (by decide)
      (fun win h => by
        have hw : win = "a.com" := by
          simpa [windowBlockHandlers, cookieblockHandlers] using h.symm
        subst hw
        rfl)).2.2.1⟩

/-! ## Headers the handlers leave alone -/

/-- C10. The handler `onModifyRequest` leaves every request header other than
`DNT` and `Referer` unchanged, whatever the classifier and the policy answer;
`onExamineResponse` leaves the channel, hence every request header, as it
was and writes no header; and when the answers of the collaborators do not
depend on the request headers, a second run of `onModifyRequest` on the
channel yields the headers of the first run. -/
theorem handlers_frame (env : Collaborators) (event : Event) (tracker : TrackingTable) :
    (∀ name, name ≠ "DNT" → name ≠ "Referer" →
      getHeader (onModifyRequest env (Exchange.start event tracker)).2.channel.headers name
        = getHeader event.subject.headers name) ∧
    ((onExamineResponse env (Exchange.start event tracker)).2.channel = event.subject ∧
      ∀ name value merge, Call.setRequestHeader name value merge ∉
        (onExamineResponse env (Exchange.start event tracker)).2.calls) ∧
    (env.headerBlind →
      (onModifyRequest env
          (Exchange.start
            { event with
              subject := (onModifyRequest env (Exchange.start event tracker)).2.channel }
            tracker)).2.channel.headers
        = (onModifyRequest env (Exchange.start event tracker)).2.channel.headers) := by
  obtain ⟨ty, ⟨http, uri, hs⟩⟩ := event
  refine ⟨?_, ⟨?_, ?_⟩, ?_⟩
  · intro name hD hR
    have h1 : getHeader (setHeader hs "DNT" "1" false) name = getHeader hs name :=
      getHeader_setHeader_other hs "DNT" "1" false name hD
    have h2 : getHeader (setHeader (setHeader hs "DNT" "1" false) "Referer" "" false) name
        = getHeader hs name := by
      rw [getHeader_setHeader_other _ "Referer" "" false name hR, h1]
    simp only [Exchange.start]
    rw [onModifyRequest_run]
    repeat' split
    all_goals simp [h1, h2]
  · simp only [Exchange.start]
    rw [onExamineResponse_run]
    repeat' split
    all_goals simp
  · intro name value merge
    simp only [Exchange.start]
    rw [onExamineResponse_run]
    repeat' split
    all_goals simp
  · intro hb
    obtain ⟨rej, hrej⟩ : ∃ rej, ∀ hs1, env.headerRejection ⟨http, uri, hs1⟩ = rej :=
      ⟨env.headerRejection ⟨http, uri, hs⟩, fun hs1 => (hb ⟨http, uri, hs⟩ hs1).1⟩
    obtain ⟨tp, htp⟩ : ∃ tp, ∀ hs1, env.isThirdPartyChannel ⟨http, uri, hs1⟩ = tp :=
      ⟨env.isThirdPartyChannel ⟨http, uri, hs⟩, fun hs1 => (hb ⟨http, uri, hs⟩ hs1).2.1⟩
    obtain ⟨win, hwin⟩ : ∃ win, ∀ hs1, env.getTopWindowForChannel ⟨http, uri, hs1⟩ = win :=
      ⟨env.getTopWindowForChannel ⟨http, uri, hs⟩, fun hs1 => (hb ⟨http, uri, hs⟩ hs1).2.2⟩
    have hD := getHeader_setHeader_same hs "DNT" "1"
    have hDD : setHeader (setHeader hs "DNT" "1" false) "DNT" "1" false
        = setHeader hs "DNT" "1" false := setHeader_of_getHeader _ _ _ hD
    have hR := getHeader_setHeader_same (setHeader hs "DNT" "1" false) "Referer" ""
    have hRD : setHeader (setHeader (setHeader hs "DNT" "1" false) "Referer" "" false)
        "DNT" "1" false = setHeader (setHeader hs "DNT" "1" false) "Referer" "" false := by
      apply setHeader_of_getHeader
      rw [getHeader_setHeader_other _ _ _ _ _ (by decide)]
      exact hD
    have hRR : setHeader (setHeader (setHeader hs "DNT" "1" false) "Referer" "" false)
        "Referer" "" false = setHeader (setHeader hs "DNT" "1" false) "Referer" "" false :=
      setHeader_of_getHeader _ _ _ hR
    simp only [Exchange.start, onModifyRequest_run, hrej, htp, hwin]
    cases http
    · simp [onModifyRequest_run]
    · cases h2 : rej "DNT" "1" false with
      | some err => simp [onModifyRequest_run, hrej, htp, hwin, h2]
      | none =>
        cases tp with
        | thrown e => simp [onModifyRequest_run, hrej, htp, hwin, h2, hDD]
        | normal b =>
          cases b
          · simp [onModifyRequest_run, hrej, htp, hwin, h2, hDD]
          · cases win with
            | thrown e => simp [onModifyRequest_run, hrej, htp, hwin, h2, hDD]
            | normal w =>
              cases h5 : env.shouldCookieblockRequest tracker uri w with
              | thrown e => simp [onModifyRequest_run, hrej, htp, hwin, h2, h5, hDD]
              | normal cb =>
                cases cb
                · simp [onModifyRequest_run, hrej, htp, hwin, h2, h5, hDD]
                · cases h6 : rej "Referer" "" false <;>
                  simp [onModifyRequest_run, hrej, htp, hwin, h2, h5, h6, hDD, hRD, hRR]

/-- Witness of C10 on a cookie-blocked request: a second run changes nothing,
and the `Accept` header is never touched. -/
theorem handlers_frame_witness :
    (onModifyRequest cookieblockHandlers
        (Exchange.start
          { trackerRequest with
            subject :=
              (onModifyRequest cookieblockHandlers
                (Exchange.start trackerRequest [])).2.channel }
          [])).2.channel.headers
      = (onModifyRequest cookieblockHandlers (Exchange.start trackerRequest [])).2.channel.headers ∧
    getHeader
      (onModifyRequest cookieblockHandlers (Exchange.start trackerRequest [])).2.channel.headers
      "Accept" = some "*/*" :=
  ⟨(handlers_frame cookieblockHandlers trackerRequest []).2.2 (fun _ _ => ⟨rfl, rfl, rfl⟩),
    ((handlers_frame cookieblockHandlers trackerRequest []).1 "Accept" (by decide)
      (by decide)).trans (by decide)⟩

/-! ## Startup and shutdown -/

/-- What `main` leaves in a fresh host when it runs to its end. -/
theorem main_run (env : Modules) (tracker : TrackingTable)
    (hmain : (main env (Host.fresh tracker)).1.isNormal = true) :
    (main env (Host.fresh tracker)).2.observers
        = [responseSubscription, requestSubscription, startupSubscription] ∧
      (main env (Host.fresh tracker)).2.categories
        = [⟨"content-policy", "PrivacyBadgerContentPolicy", env.contract⟩] ∧
      (main env (Host.fresh tracker)).2.dispatched = [] := by
  revert hmain
  simp only [main, bind, Script.bind, heuristicBlocker_init, userStorage_init,
    userStorage_sync, getService, addCategoryEntry, events_on, events_once, console_log,
    Host.log, Host.fresh]
  cases h1 : (env.heuristicBlocker_init tracker).1 with
  | thrown e => simp [Completion.isNormal]
  | normal u =>
    cases h2 : env.userStorage_init with
    | thrown e => simp [Completion.isNormal]
    | normal u =>
      cases h3 : env.userStorage_sync with
      | thrown e => simp [Completion.isNormal]
      | normal u =>
        intro _
        simp [Subscription.isFor, CategoryEntry.named, responseSubscription,
          requestSubscription, startupSubscription]

/-- Delivery of the first request event after `main`: both request listeners
run, in the order of their registration, and the single-use one is removed. -/
theorem emit_first_request (env : Modules) (h : Host) (e : Event)
    (hobs : h.observers = [responseSubscription, requestSubscription, startupSubscription])
    (hty : e.type = "http-on-modify-request") :
    (emit env h e).1.observers = [responseSubscription, requestSubscription] ∧
      (emit env h e).1.dispatched.map (fun d => d.listener)
        = h.dispatched.map (fun d => d.listener) ++ [.onModifyRequest, .pbUI_onStartup] := by
  simp [emit, hobs, hty, List.filter, notifyListener, responseSubscription,
    requestSubscription, startupSubscription]

/-- Delivery of a later request event: only `onModifyRequest` runs. -/
theorem emit_later_request (env : Modules) (h : Host) (e : Event)
    (hobs : h.observers = [responseSubscription, requestSubscription])
    (hty : e.type = "http-on-modify-request") :
    (emit env h e).1.observers = [responseSubscription, requestSubscription] ∧
      (emit env h e).1.dispatched.map (fun d => d.listener)
        = h.dispatched.map (fun d => d.listener) ++ [.onModifyRequest] := by
  simp [emit, hobs, hty, List.filter, notifyListener, responseSubscription,
    requestSubscription]

/-- Delivery of a sequence of later request events. -/
theorem emitAll_later_requests (env : Modules) (events : List Event) :
    ∀ h : Host, h.observers = [responseSubscription, requestSubscription] →
      (∀ e ∈ events, e.type = "http-on-modify-request") →
      (emitAll env h events).observers = [responseSubscription, requestSubscription] ∧
        (emitAll env h events).dispatched.map (fun d => d.listener)
          = h.dispatched.map (fun d => d.listener)
            ++ List.replicate events.length .onModifyRequest := by
  induction events with
  | nil => intro h hobs _; simp [emitAll, hobs]
  | cons e rest ih =>
    intro h hobs hty
    have he := emit_later_request env h e hobs (hty e (List.mem_cons_self _ _))
    have hr := ih (emit env h e).1 he.1 (fun e' he' => hty e' (List.mem_cons_of_mem _ he'))
    have hstep : emitAll env h (e :: rest) = emitAll env (emit env h e).1 rest := by
      simp [emitAll]
    rw [hstep]
    refine ⟨hr.1, ?_⟩
    rw [hr.2, he.2, List.append_assoc]
    simp [List.replicate_succ]

/-- C9. After `main`, whatever non-empty sequence of `http-on-modify-request`
events is delivered, `pbUI.onStartup` is invoked exactly once, during the
delivery of the first event and after `onModifyRequest`, and is no longer
subscribed afterwards, while `onModifyRequest` is invoked once for every
event and stays subscribed. -/
theorem startup_fires_once (env : Modules) (tracker : TrackingTable) (first : Event)
    (rest : List Event)
    (hmain : (main env (Host.fresh tracker)).1.isNormal = true)
    (hty : ∀ e ∈ first :: rest, e.type = "http-on-modify-request") :
    (emitAll env (main env (Host.fresh tracker)).2 (first :: rest)).dispatched.map
        (fun d => d.listener)
      = .onModifyRequest :: .pbUI_onStartup :: List.replicate rest.length .onModifyRequest ∧
    ((emitAll env (main env (Host.fresh tracker)).2 (first :: rest)).dispatched.map
        (fun d => d.listener)).count .pbUI_onStartup = 1 ∧
    ((emitAll env (main env (Host.fresh tracker)).2 (first :: rest)).dispatched.map
        (fun d => d.listener)).count .onModifyRequest = (first :: rest).length ∧
    (∀ s ∈ (emitAll env (main env (Host.fresh tracker)).2 (first :: rest)).observers,
      s.listener ≠ .pbUI_onStartup) ∧
    requestSubscription ∈
      (emitAll env (main env (Host.fresh tracker)).2 (first :: rest)).observers := by
  obtain ⟨hobs, _, hdis⟩ := main_run env tracker hmain
  have he := emit_first_request env _ first hobs (hty first (List.mem_cons_self _ _))
  have hr := emitAll_later_requests env rest (emit env (main env (Host.fresh tracker)).2 first).1
    he.1 (fun e' he' => hty e' (List.mem_cons_of_mem _ he'))
  have hstep : emitAll env (main env (Host.fresh tracker)).2 (first :: rest)
      = emitAll env (emit env (main env (Host.fresh tracker)).2 first).1 rest := by
    simp [emitAll]
  rw [hstep, hr.1, hr.2, he.2, hdis]
  refine ⟨by simp, ?_, ?_, ?_, ?_⟩
  · simp [List.count_cons, List.count_replicate]
  · simp [List.count_cons, List.count_replicate]
  · intro s hs
    simp [responseSubscription, requestSubscription] at hs
    rcases hs with rfl | rfl <;> simp
  · simp

/-- Witness of C9 on three request events. -/
theorem startup_fires_once_witness :
    (emitAll quietModules (main quietModules (Host.fresh [])).2
        [trackerRequest, trackerRequest, trackerRequest]).dispatched.map (fun d => d.listener)
      = [.onModifyRequest, .pbUI_onStartup, .onModifyRequest, .onModifyRequest] :=
  (startup_fires_once quietModules [] trackerRequest [trackerRequest, trackerRequest]
    (by decide) (by decide)).1

/-- Delivery of an event that is no request event after `main`: the three
subscriptions and the registry stay as they are. -/
theorem emit_other_event (env : Modules) (h : Host) (e : Event)
    (hobs : h.observers = [responseSubscription, requestSubscription, startupSubscription])
    (hty : e.type ≠ "http-on-modify-request") :
    (emit env h e).1.observers
        = [responseSubscription, requestSubscription, startupSubscription] ∧
      (emit env h e).1.categories = h.categories := by
  have hty2 : ¬ "http-on-modify-request" = e.type := fun h => hty h.symm
  by_cases hr : "http-on-examine-response" = e.type
  · simp [emit, hobs, hty2, hr, List.filter, notifyListener, responseSubscription,
      requestSubscription, startupSubscription]
  · simp [emit, hobs, hty2, hr, List.filter, responseSubscription,
      requestSubscription, startupSubscription]

/-- Delivery of a sequence of events none of which is a request event. -/
theorem emitAll_other_events (env : Modules) (events : List Event) :
    ∀ h : Host,
      h.observers = [responseSubscription, requestSubscription, startupSubscription] →
      (∀ e ∈ events, e.type ≠ "http-on-modify-request") →
      (emitAll env h events).observers
          = [responseSubscription, requestSubscription, startupSubscription] ∧
        (emitAll env h events).categories = h.categories := by
  induction events with
  | nil => intro h hobs _; simp [emitAll, hobs]
  | cons e rest ih =>
    intro h hobs hty
    have he := emit_other_event env h e hobs (hty e (List.mem_cons_self _ _))
    have hr := ih (emit env h e).1 he.1 (fun e' he' => hty e' (List.mem_cons_of_mem _ he'))
    have hstep : emitAll env h (e :: rest) = emitAll env (emit env h e).1 rest := by
      simp [emitAll]
    rw [hstep]
    exact ⟨hr.1, hr.2.trans he.2⟩

/-- What `unload` leaves of the subscriptions and of the registry. -/
theorem unload_run (env : Modules) (h : Host) :
    (unload env h).2.observers
        = (h.observers.filter
            (fun s => !s.isFor "http-on-examine-response" .onExamineResponse)).filter
            (fun s => !s.isFor "http-on-modify-request" .onModifyRequest) ∧
      (unload env h).2.categories
        = h.categories.filter
            (fun c => !c.named "content-policy" "PrivacyBadgerContentPolicy") := by
  simp only [unload, bind, Script.bind, getService, deleteCategoryEntry, events_off,
    pbUI_onShutdown, off_settingsMap, console_log, Host.log]
  cases h1 : env.pbUI_onShutdown <;> simp

/-- C5 fails on the code. Start from a host with no subscription and no
registry entry, run `main` to its end, deliver any sequence of events that
holds no `http-on-modify-request` event (the empty sequence among them) and
run `unload`: the category entry is gone, the two handlers are unsubscribed,
and the single-use subscription of `pbUI.onStartup` is still there, since
`unload` has no call that releases what `events.once` acquired. -/
theorem unload_leaves_startup_subscription (env : Modules) (tracker : TrackingTable)
    (events : List Event)
    (hmain : (main env (Host.fresh tracker)).1.isNormal = true)
    (hty : ∀ e ∈ events, e.type ≠ "http-on-modify-request") :
    (unload env (emitAll env (main env (Host.fresh tracker)).2 events)).2.observers
      = [startupSubscription] ∧
    (unload env (emitAll env (main env (Host.fresh tracker)).2 events)).2.categories = [] := by
  obtain ⟨hobs, hcat, _⟩ := main_run env tracker hmain
  obtain ⟨h1, h2⟩ := emitAll_other_events env events _ hobs hty
  obtain ⟨h3, h4⟩ := unload_run env (emitAll env (main env (Host.fresh tracker)).2 events)
  rw [h3, h4, h1, h2, hcat]
  constructor
  · simp [List.filter, Subscription.isFor, responseSubscription, requestSubscription,
      startupSubscription]
  · simp [List.filter, CategoryEntry.named]

/-- The failing input of C5: no event, or one response, between `main` and
`unload` leaves the startup subscription behind; one request leaves none. -/
theorem unload_leaves_startup_subscription_witness :
    (unload quietModules
        (emitAll quietModules (main quietModules (Host.fresh [])).2 [])).2.observers
      = [startupSubscription] ∧
    (unload quietModules
        (emitAll quietModules (main quietModules (Host.fresh [])).2 [trackerResponse])).2.observers
      = [startupSubscription] ∧
    (unload quietModules
        (emitAll quietModules (main quietModules (Host.fresh [])).2 [trackerRequest])).2.observers
      = [] :=
  ⟨(unload_leaves_startup_subscription quietModules [] [] (by decide) (by decide)).1,
    (unload_leaves_startup_subscription quietModules [] [trackerResponse] (by decide)
      (by decide)).1,
    by decide⟩

/-- C8, as the claim states it, fails: `unload` does not release in the
reverse of the order of `main`. -/
theorem unload_order_counterexample :
    acquisitions quietModules (Host.fresh [])
      = [.categoryEntry "content-policy" "PrivacyBadgerContentPolicy",
          .subscription "http-on-examine-response" .onExamineResponse,
          .subscription "http-on-modify-request" .onModifyRequest,
          .subscription "http-on-modify-request" .pbUI_onStartup] ∧
    releases quietModules (main quietModules (Host.fresh [])).2
      ≠ [.subscription "http-on-modify-request" .onModifyRequest,
          .subscription "http-on-examine-response" .onExamineResponse,
          .categoryEntry "content-policy" "PrivacyBadgerContentPolicy"] := by
  decide

/-- C8, amended. The function `unload` releases the content-policy category
entry first, then the response handler, then the request handler: the order
in which `main` acquired them, not its reverse. -/
theorem unload_order (env : Modules) (h0 h1 : Host)
    (hmain : (main env h0).1.isNormal = true) :
    acquisitions env h0
      = [.categoryEntry "content-policy" "PrivacyBadgerContentPolicy",
          .subscription "http-on-examine-response" .onExamineResponse,
          .subscription "http-on-modify-request" .onModifyRequest,
          .subscription "http-on-modify-request" .pbUI_onStartup] ∧
    releases env h1
      = [.categoryEntry "content-policy" "PrivacyBadgerContentPolicy",
          .subscription "http-on-examine-response" .onExamineResponse,
          .subscription "http-on-modify-request" .onModifyRequest] ∧
    releases env h1 = (acquisitions env h0).take 3 := by
  have hrel : releases env h1
      = [.categoryEntry "content-policy" "PrivacyBadgerContentPolicy",
          .subscription "http-on-examine-response" .onExamineResponse,
          .subscription "http-on-modify-request" .onModifyRequest] := by
    simp only [releases, callsOf, unload, bind, Script.bind, getService, deleteCategoryEntry,
      events_off, pbUI_onShutdown, off_settingsMap, console_log, Host.log]
    cases h : env.pbUI_onShutdown <;> simp [HostCall.releases]
  have hacq : acquisitions env h0
      = [.categoryEntry "content-policy" "PrivacyBadgerContentPolicy",
          .subscription "http-on-examine-response" .onExamineResponse,
          .subscription "http-on-modify-request" .onModifyRequest,
          .subscription "http-on-modify-request" .pbUI_onStartup] := by
    revert hmain
    simp only [acquisitions, callsOf, main, bind, Script.bind, heuristicBlocker_init,
      userStorage_init, userStorage_sync, getService, addCategoryEntry, events_on,
      events_once, console_log, Host.log]
    cases h1 : (env.heuristicBlocker_init h0.tracker).1 with
    | thrown e => simp [Completion.isNormal]
    | normal u =>
      cases h2 : env.userStorage_init with
      | thrown e => simp [Completion.isNormal]
      | normal u =>
        cases h3 : env.userStorage_sync with
        | thrown e => simp [Completion.isNormal]
        | normal u =>
          intro _
          simp [HostCall.acquires]
  exact ⟨hacq, hrel, by rw [hrel, hacq]; rfl⟩

/-- Witness of C8 amended. -/
theorem unload_order_witness :
    releases quietModules (main quietModules (Host.fresh [])).2
      = (acquisitions quietModules (Host.fresh [])).take 3 :=
  (unload_order quietModules (Host.fresh []) (main quietModules (Host.fresh [])).2
    (by decide)).2.2

/-! ## Failing collaborators -/

/-- Delivery to a list of subscriptions keeps every persistent subscription
and invokes every listener of the list, however the invocations end. -/
theorem foldl_notifyListener (env : Modules) (event : Event) (subs : List Subscription) :
    ∀ acc : Host × Subject,
      (subs.foldl (notifyListener env event) acc).1.observers.filter (fun s => !s.once)
          = acc.1.observers.filter (fun s => !s.once) ∧
        (subs.foldl (notifyListener env event) acc).1.dispatched.map (fun d => d.listener)
          = acc.1.dispatched.map (fun d => d.listener) ++ subs.map (fun s => s.listener) := by
  induction subs with
  | nil => intro acc; simp
  | cons s rest ih =>
    intro acc
    obtain ⟨h1, h2⟩ := ih (notifyListener env event acc s)
    simp only [List.foldl_cons]
    rw [h1, h2]
    constructor
    · simp only [notifyListener]
      cases hs : s.once
      · simp
      · simp only [if_true, List.filter_filter]
        apply List.filter_congr
        intro t _
        cases ht : t.once
        · have : t ≠ s := fun h => by rw [h, hs] at ht; exact Bool.noConfusion ht
          simp [this]
        · simp
    · simp [notifyListener]

/-- C7, as the claim states it, fails: when the classifier throws,
`onModifyRequest` does not return normally, it throws the same error. -/
theorem handler_error_counterexample :
    faultyHandlers.isThirdPartyChannel
        (onModifyRequest faultyHandlers (Exchange.start trackerRequest [])).2.channel
      = .thrown "classifier failure" ∧
    (onModifyRequest faultyHandlers (Exchange.start trackerRequest [])).1
      = .thrown "classifier failure" ∧
    (onModifyRequest faultyHandlers (Exchange.start trackerRequest [])).1.isNormal = false := by
  decide

/-- C7, amended. Neither handler catches: when a collaborator it calls
throws, the invocation ends by throwing that same error to the event source,
and the header writes made before the throw are kept (the headers are the
prior ones when the throw comes before the `DNT` write is accepted, and the
prior ones with `DNT` overwritten by `"1"` on every later throw). The event
source isolates the throw: however the invocations end, every listener
subscribed to the event is invoked and every persistent subscription is
still there after the delivery, so later events reach the handler again. -/
theorem handler_errors_propagate (env : Modules) (host : Host) (event : Event)
    (tracker : TrackingTable) (e : String) :
    ((event.subject.httpChannel = false →
        (onModifyRequest env.handlers (Exchange.start event tracker)).1
            = .thrown "NS_NOINTERFACE" ∧
          (onModifyRequest env.handlers (Exchange.start event tracker)).2.channel.headers
            = event.subject.headers) ∧
      (event.subject.httpChannel = true →
        env.handlers.headerRejection event.subject "DNT" "1" false = some e →
        (onModifyRequest env.handlers (Exchange.start event tracker)).1 = .thrown e ∧
          (onModifyRequest env.handlers (Exchange.start event tracker)).2.channel.headers
            = event.subject.headers) ∧
      (event.subject.httpChannel = true →
        env.handlers.headerRejection event.subject "DNT" "1" false = none →
        env.handlers.isThirdPartyChannel
            { event.subject with headers := setHeader event.subject.headers "DNT" "1" false }
          = .thrown e →
        (onModifyRequest env.handlers (Exchange.start event tracker)).1 = .thrown e ∧
          (onModifyRequest env.handlers (Exchange.start event tracker)).2.channel.headers
            = setHeader event.subject.headers "DNT" "1" false ∧
          getHeader
              (onModifyRequest env.handlers (Exchange.start event tracker)).2.channel.headers
              "DNT" = some "1") ∧
      (event.subject.httpChannel = true →
        env.handlers.headerRejection event.subject "DNT" "1" false = none →
        env.handlers.isThirdPartyChannel
            { event.subject with headers := setHeader event.subject.headers "DNT" "1" false }
          = .normal true →
        env.handlers.getTopWindowForChannel
            { event.subject with headers := setHeader event.subject.headers "DNT" "1" false }
          = .thrown e →
        (onModifyRequest env.handlers (Exchange.start event tracker)).1 = .thrown e ∧
          (onModifyRequest env.handlers (Exchange.start event tracker)).2.channel.headers
            = setHeader event.subject.headers "DNT" "1" false ∧
          getHeader
              (onModifyRequest env.handlers (Exchange.start event tracker)).2.channel.headers
              "DNT" = some "1") ∧
      (∀ aWin, event.subject.httpChannel = true →
        env.handlers.headerRejection event.subject "DNT" "1" false = none →
        env.handlers.isThirdPartyChannel
            { event.subject with headers := setHeader event.subject.headers "DNT" "1" false }
          = .normal true →
        env.handlers.getTopWindowForChannel
            { event.subject with headers := setHeader event.subject.headers "DNT" "1" false }
          = .normal aWin →
        (env.handlers.shouldCookieblockRequest tracker event.subject.URI aWin = .thrown e ∨
          (env.handlers.shouldCookieblockRequest tracker event.subject.URI aWin
              = .normal true ∧
            env.handlers.headerRejection
                { event.subject with
                  headers := setHeader event.subject.headers "DNT" "1" false }
                "Referer" "" false = some e)) →
        (onModifyRequest env.handlers (Exchange.start event tracker)).1 = .thrown e ∧
          (onModifyRequest env.handlers (Exchange.start event tracker)).2.channel.headers
            = setHeader event.subject.headers "DNT" "1" false ∧
          getHeader
              (onModifyRequest env.handlers (Exchange.start event tracker)).2.channel.headers
              "DNT" = some "1")) ∧
    ((event.subject.httpChannel = false →
        (onExamineResponse env.handlers (Exchange.start event tracker)).1
            = .thrown "NS_NOINTERFACE" ∧
          (onExamineResponse env.handlers (Exchange.start event tracker)).2.channel
            = event.subject ∧
          (onExamineResponse env.handlers (Exchange.start event tracker)).2.tracker = tracker) ∧
      (event.subject.httpChannel = true →
        env.handlers.isThirdPartyChannel event.subject = .thrown e →
        (onExamineResponse env.handlers (Exchange.start event tracker)).1 = .thrown e ∧
          (onExamineResponse env.handlers (Exchange.start event tracker)).2.channel
            = event.subject ∧
          (onExamineResponse env.handlers (Exchange.start event tracker)).2.tracker = tracker) ∧
      (event.subject.httpChannel = true →
        env.handlers.isThirdPartyChannel event.subject = .normal true →
        (env.handlers.updateHeuristics event.subject tracker).1 = .thrown e →
        (onExamineResponse env.handlers (Exchange.start event tracker)).1 = .thrown e ∧
          (onExamineResponse env.handlers (Exchange.start event tracker)).2.channel
            = event.subject ∧
          (onExamineResponse env.handlers (Exchange.start event tracker)).2.tracker
            = (env.handlers.updateHeuristics event.subject tracker).2)) ∧
    ((emit env host event).1.observers.filter (fun s => !s.once)
        = host.observers.filter (fun s => !s.once) ∧
      (emit env host event).1.dispatched.map (fun d => d.listener)
        = host.dispatched.map (fun d => d.listener)
          ++ (host.observers.filter (fun s => s.type = event.type)).map
              (fun s => s.listener)) := by
  refine ⟨?_, ?_, ?_⟩
  · obtain ⟨ty, ⟨http, uri, hs⟩⟩ := event
    simp only [Exchange.start]
    rw [onModifyRequest_run]
    have hD := getHeader_setHeader_same hs "DNT" "1"
    refine ⟨?_, ?_, ?_, ?_, ?_⟩
    · intro h; simp [h]
    · intro h1 h2; subst h1; simp [h2]
    · intro h1 h2 h3; subst h1; simp [h2, h3, hD]
    · intro h1 h2 h3 h4; subst h1; simp [h2, h3, h4, hD]
    · intro w h1 h2 h3 h4 h5
      subst h1
      rcases h5 with h5 | ⟨h5, h6⟩
      · simp [h2, h3, h4, h5, hD]
      · simp [h2, h3, h4, h5, h6, hD]
  · obtain ⟨ty, ⟨http, uri, hs⟩⟩ := event
    simp only [Exchange.start]
    rw [onExamineResponse_run]
    refine ⟨?_, ?_, ?_⟩
    · intro h; simp [h]
    · intro h1 h2; subst h1; simp [h2]
    · intro h1 h2 h3; subst h1; simp [h2, h3]
  · exact foldl_notifyListener env event _ (host, event.subject)

/-- Witness of C7 amended: with a window lookup that throws, the request
handler throws that error and the `DNT` write made before the throw is kept;
with a classifier that throws, the response handler throws it, both request
listeners are still invoked, and the two handlers stay subscribed. -/
theorem handler_errors_propagate_witness :
    ((onModifyRequest windowFaultHandlers (Exchange.start trackerRequest [])).1
          = .thrown "no top window" ∧
        (onModifyRequest windowFaultHandlers (Exchange.start trackerRequest [])).2.channel.headers
          = [("Referer", "http://a.com/"), ("DNT", "1"), ("Accept", "*/*")]) ∧
      (onExamineResponse faultyHandlers (Exchange.start trackerResponse [])).1
        = .thrown "classifier failure" ∧
      (emit { quietModules with handlers := faultyHandlers }
          (main { quietModules with handlers := faultyHandlers } (Host.fresh [])).2
          trackerRequest).1.observers.filter (fun s => !s.once)
        = [responseSubscription, requestSubscription] :=
  ⟨⟨((handler_errors_propagate { quietModules with handlers := windowFaultHandlers }
        (Host.fresh []) trackerRequest [] "no top window").1.2.2.2.1
        (by decide) (by decide) (by decide) (by decide)).1,
      ((handler_errors_propagate { quietModules with handlers := windowFaultHandlers }
        (Host.fresh []) trackerRequest [] "no top window").1.2.2.2.1
        (by decide) (by decide) (by decide) (by decide)).2.1⟩,
    ((handler_errors_propagate { quietModules with handlers := faultyHandlers } (Host.fresh [])
      trackerResponse [] "classifier failure").2.1.2.1 (by decide) (by decide)).1,
    ((handler_errors_propagate { quietModules with handlers := faultyHandlers }
      (main { quietModules with handlers := faultyHandlers } (Host.fresh [])).2
      trackerRequest [] "").2.2.1).trans (by decide)⟩

end PrivacyBadger
